import Mathlib

/-!
# Verification of the Pocket-to-Omnivore row-processing pipeline

A shallow embedding of the row-processing core of the importer:

* `TagProcessor.processTags`  (src/tag-processor.js)
* `CsvParser.validateRow`     (csv-parser.js)
* `shouldArchiveArticle`, the save-request builders, `checkUrlAlive`
  outcome classification, `createProcessingResult` / `createSkippedResult`,
  statistics accounting and the fail-fast batch loop `processAllRows`
  (importer.js, `PocketToOmnivoreImporter`).

External collaborators — the platform `URL` constructor, the network
liveness probe, the Omnivore save client, and the uuid generator — are
passed in explicitly as parameters, mirroring the spec's treatment of
them as black boxes.  Javascript string primitives (`trim`, `split`) are
modelled directly on character lists so every definition is executable
and kernel-reducible.
-/

/-! ## Javascript string primitives -/

/-- The whitespace characters trimmed by Javascript `String.prototype.trim`
(restricted to the ASCII subset that can occur in this pipeline). -/
def isJsWhitespace (c : Char) : Bool :=
  c = ' ' || c = '\t' || c = '\n' || c = '\r' || c = '\x0b' || c = '\x0c'

/-- Model of Javascript `s.trim()`: drop leading and trailing whitespace. -/
def jsTrim (s : String) : String :=
  ⟨((s.data.dropWhile isJsWhitespace).reverse.dropWhile isJsWhitespace).reverse⟩

/-- Split a character list on a separator character; like Javascript
`String.prototype.split` with a single-character separator, the result
always has one more group than the number of separators. -/
def splitChars (sep : Char) : List Char → List (List Char)
  | [] => [[]]
  | c :: rest =>
    match splitChars sep rest with
    | [] => if c = sep then [[], []] else [[c]]
    | g :: gs => if c = sep then [] :: g :: gs else (c :: g) :: gs

/-- Model of Javascript `s.split(sep)` for a one-character separator. -/
def jsSplit (sep : Char) (s : String) : List String :=
  (splitChars sep s.data).map (fun cs => ⟨cs⟩)

/-- Model of the Javascript regex test `/^\d+$/.exec(s)` being non-null:
the whole string is a non-empty run of decimal digits. -/
def isBareInteger (s : String) : Bool :=
  !s.data.isEmpty && s.data.all Char.isDigit

/-! ## TagProcessor (src/tag-processor.js) -/

/-- `TagProcessor.DEFAULT_TAG_COLOR`. -/
def DEFAULT_TAG_COLOR : String := "#EF8C43"

/-- An Omnivore label object as produced by `TagProcessor.processTags`. -/
structure Tag where
  name : String
  color : String
  description : String
deriving DecidableEq, Repr

/-- `TagProcessor.processTags`: turn a pipe-separated tag string into label
objects.  Empty / whitespace-only input and bare-integer input (a
misaligned timestamp column) yield no labels; otherwise split on `|`,
trim, drop empties, and build labels with the default color. -/
def processTags (tagsString : String) : List Tag :=
  if tagsString = "" || jsTrim tagsString = "" then []
  else if isBareInteger tagsString then []
  else
    (((jsSplit '|' tagsString).map jsTrim).filter (fun t => t != "")).map
      (fun t => { name := t, color := DEFAULT_TAG_COLOR, description := "" })

/-! ## Importer options and ArchivePolicy -/

/-- The options record built in the `PocketToOmnivoreImporter` constructor. -/
structure Options where
  unreadUntagged : Bool
  delayBetweenRequests : Nat
  urlTimeout : Nat
deriving DecidableEq, Repr

/-- `shouldArchiveArticle`: archive only rows whose Pocket status is
`"archive"`; under `unreadUntagged` mode additionally require tags. -/
def shouldArchiveArticle (opts : Options) (status : String) (hasTags : Bool) : Bool :=
  if status ≠ "archive" then
    false
  else if opts.unreadUntagged then
    hasTags
  else
    true

example : processTags "" = [] := by decide
example : processTags "123" = [] := by decide
example : processTags " a | b " =
    [⟨"a", "#EF8C43", ""⟩, ⟨"b", "#EF8C43", ""⟩] := by decide

/-! ## RecordValidator (`CsvParser.validateRow`, csv-parser.js)

The platform `URL` constructor is external to the repository; it is
modelled by a parameter `urlParseError : String → Option String` where
`none` means `new URL(url)` succeeds and `some detail` means it throws
with message `detail`. -/

/-- A raw CSV row: a partial mapping from the expected column names to
strings (a missing column is `none`, matching `rowData.field ||` access
on a Javascript object). -/
structure RawRecord where
  title : Option String
  url : Option String
  time_added : Option String
  tags : Option String
  status : Option String
deriving DecidableEq, Repr

/-- The two validation failures thrown by `CsvParser.validateRow`. -/
inductive RowError where
  | emptyUrl (rowNum : Nat)
  | invalidUrlFormat (rowNum : Nat) (url : String) (detail : String)
deriving DecidableEq, Repr

/-- The message strings of the thrown validation errors. -/
def rowErrorMessage : RowError → String
  | .emptyUrl rowNum => "Row " ++ toString rowNum ++ ": Empty URL found"
  | .invalidUrlFormat rowNum url detail =>
      "Row " ++ toString rowNum ++ ": Invalid URL format: " ++ url
        ++ " Error: " ++ detail

/-- The validated and cleaned row returned by `CsvParser.validateRow`. -/
structure ValidatedRecord where
  title : String
  url : String
  timeAdded : String
  tags : String
  status : String
deriving DecidableEq, Repr

/-- `CsvParser.validateRow`: default missing fields to `""`, trim, reject an
empty url, then reject a url the `URL` constructor does not accept. -/
def validateRow (urlParseError : String → Option String) (rowNum : Nat)
    (rowData : RawRecord) : Except RowError ValidatedRecord :=
  let title := jsTrim (rowData.title.getD "")
  let url := jsTrim (rowData.url.getD "")
  let timeAdded := jsTrim (rowData.time_added.getD "")
  let tags := jsTrim (rowData.tags.getD "")
  let status := jsTrim (rowData.status.getD "")
  if url = "" then
    .error (.emptyUrl rowNum)
  else
    match urlParseError url with
    | some detail => .error (.invalidUrlFormat rowNum url detail)
    | none => .ok ⟨title, url, timeAdded, tags, status⟩

/-! ## RequestBuilder (importer.js `prepareSaveParams` … `buildSaveParams`) -/

/-- Model of Javascript `parseInt(s, 10)`: skip leading whitespace, read an
optional sign and then a non-empty run of decimal digits (trailing
characters are ignored); `none` models the `NaN` result. -/
def jsParseInt10 (s : String) : Option Int :=
  let digitsVal : List Char → Option Nat := fun cs =>
    let ds := cs.takeWhile Char.isDigit
    if ds.isEmpty then none
    else some (ds.foldl (fun a c => a * 10 + (c.toNat - '0'.toNat)) 0)
  match s.data.dropWhile isJsWhitespace with
  | '-' :: rest => (digitsVal rest).map (fun n => -(n : Int))
  | '+' :: rest => (digitsVal rest).map (fun n => (n : Int))
  | cs => (digitsVal cs).map (fun n => (n : Int))

/-- Left-pad the decimal representation of `n` with zeros to width `w`. -/
def padNat (w : Nat) (n : Nat) : String :=
  let digits := toString n
  ⟨List.replicate (w - digits.length) '0' ++ digits.data⟩

/-- Proleptic-Gregorian date of a day count relative to 1970-01-01
(Hinnant's `civil_from_days`): returns `(year, month, day)`. -/
def civilFromDays (z : Int) : Int × Nat × Nat :=
  let z := z + 719468
  let era := Int.fdiv z 146097
  let doe := (z - era * 146097).toNat
  let yoe := (doe - doe / 1460 + doe / 36524 - doe / 146096) / 365
  let y := (yoe : Int) + era * 400
  let doy := doe - (365 * yoe + yoe / 4 - yoe / 100)
  let mp := (5 * doy + 2) / 153
  let d := doy - (153 * mp + 2) / 5 + 1
  let m := if mp < 10 then mp + 3 else mp - 9
  (if m ≤ 2 then y + 1 else y, m, d)

/-- Model of Javascript `new Date(ms).toISOString()` for the instant `ms`
milliseconds since the Unix epoch: `YYYY-MM-DDTHH:mm:ss.sssZ` in UTC. -/
def toISOString (ms : Int) : String :=
  let day := Int.fdiv ms 86400000
  let msod := (ms - day * 86400000).toNat
  let ymd := civilFromDays day
  let year := if 0 ≤ ymd.1 ∧ ymd.1 ≤ 9999 then padNat 4 ymd.1.toNat
    else if ymd.1 < 0 then "-" ++ padNat 6 (-ymd.1).toNat
    else "+" ++ padNat 6 ymd.1.toNat
  year ++ "-" ++ padNat 2 ymd.2.1 ++ "-" ++ padNat 2 ymd.2.2
    ++ "T" ++ padNat 2 (msod / 3600000) ++ ":" ++ padNat 2 (msod % 3600000 / 60000)
    ++ ":" ++ padNat 2 (msod % 60000 / 1000) ++ "." ++ padNat 3 (msod % 1000) ++ "Z"

/-- The Omnivore save request assembled by `buildSaveParams`; optional
fields are `none` when the corresponding Javascript property is absent. -/
structure SaveParams where
  url : String
  clientRequestId : String
  source : String
  timezone : String
  locale : String
  labels : Option (List Tag)
  state : Option String
  savedAt : Option String
  publishedAt : Option String
deriving DecidableEq, Repr

/-- `prepareSaveParams`: the base request.  The uuid generated by
`uuidv4()` is passed in as `uuid`. -/
def prepareSaveParams (uuid url : String) : SaveParams :=
  { url := url, clientRequestId := uuid, source := "api", timezone := "UTC",
    locale := "en-US", labels := none, state := none,
    savedAt := none, publishedAt := none }

/-- `addLabelsToParams`: attach `labels` only when non-empty. -/
def addLabelsToParams (saveParams : SaveParams) (labels : List Tag) : SaveParams :=
  if labels.length > 0 then { saveParams with labels := some labels } else saveParams

/-- `addArchiveStateToParams`: set `state = "ARCHIVED"` only when archiving. -/
def addArchiveStateToParams (saveParams : SaveParams) (sa : Bool) : SaveParams :=
  if sa then { saveParams with state := some "ARCHIVED" } else saveParams

/-- `addTimestampsToParams`: when `timeAdded` is non-empty and parses with
`parseInt(·, 10)`, set both timestamps to the ISO instant of
`timeAdded * 1000` milliseconds since the epoch. -/
def addTimestampsToParams (saveParams : SaveParams) (timeAdded : String) : SaveParams :=
  if timeAdded ≠ "" then
    match jsParseInt10 timeAdded with
    | some v =>
        let timestamp := toISOString (v * 1000)
        { saveParams with savedAt := some timestamp, publishedAt := some timestamp }
    | none => saveParams
  else saveParams

/-- `buildSaveParams`: base request plus labels, archive state, timestamps. -/
def buildSaveParams (uuid url : String) (labels : List Tag) (sa : Bool)
    (timeAdded : String) : SaveParams :=
  addTimestampsToParams
    (addArchiveStateToParams (addLabelsToParams (prepareSaveParams uuid url) labels) sa)
    timeAdded

example : toISOString (1609459200 * 1000) = "2021-01-01T00:00:00.000Z" := by decide
example : jsParseInt10 "1609459200" = some 1609459200 := by decide
example : jsParseInt10 "" = none := by decide
example : jsParseInt10 "abc" = none := by decide

/-! ## LivenessProbe (`checkUrlAlive`, importer.js)

`checkUrlAlive` performs a HEAD request and resolves its promise from
exactly one of three callback events: a response with a status code, a
connection error, or a timeout.  The network itself is external; the
classification of the event into a `LivenessResult` is the code under
verification. -/

/-- The result object `checkUrlAlive` resolves with. -/
structure LivenessResult where
  isAlive : Bool
  statusCode : Option Int
  reason : String
deriving DecidableEq, Repr

/-- The three callback events that can settle the `checkUrlAlive` promise:
a response carrying a status code, an `error` event carrying
`err.code || err.message`, or the `timeout` event. -/
inductive ProbeEvent where
  | response (statusCode : Int)
  | connError (reason : String)
  | timeout
deriving DecidableEq, Repr

/-- The outcome classification of `checkUrlAlive`: how each callback event
is turned into the resolved `LivenessResult`. -/
def checkUrlAliveOutcome : ProbeEvent → LivenessResult
  | .response statusCode =>
      if 200 ≤ statusCode ∧ statusCode < 400 then
        { isAlive := true, statusCode := some statusCode, reason := "OK" }
      else
        { isAlive := false, statusCode := some statusCode,
          reason := "HTTP " ++ toString statusCode }
  | .connError reason => { isAlive := false, statusCode := none, reason := reason }
  | .timeout => { isAlive := false, statusCode := none, reason := "Timeout" }

/-! ## Row outcomes and statistics (importer.js) -/

/-- The per-row processing result object.  Javascript builds two shapes of
object (`createProcessingResult` / `createSkippedResult`); fields absent
on one shape are modelled as `none` / the falsy default. -/
structure ProcessingResult where
  success : Bool
  skipped : Bool
  id : Option String
  title : String
  url : String
  reason : Option String
  hasLabels : Bool
  isArchived : Bool
  wasArchivedInPocket : Bool
deriving DecidableEq, Repr

/-- `createProcessingResult`: the result object for a successfully saved
row (`apiResultId` is `apiResult.id` from the save client). -/
def createProcessingResult (apiResultId title url : String) (labels : List Tag)
    (saveParams : SaveParams) (status : String) : ProcessingResult :=
  { success := true, skipped := false, id := some apiResultId,
    title := title, url := url, reason := none,
    hasLabels := decide (labels.length > 0),
    isArchived := decide (saveParams.state = some "ARCHIVED"),
    wasArchivedInPocket := decide (status = "archive") }

/-- `createSkippedResult`: the result object for a row skipped because its
URL is dead. -/
def createSkippedResult (title url reason : String) : ProcessingResult :=
  { success := false, skipped := true, id := none,
    title := title, url := url, reason := some reason,
    hasLabels := false, isArchived := false, wasArchivedInPocket := false }

/-- The running import statistics. -/
structure Stats where
  total : Nat
  successful : Nat
  skipped : Nat
  tagged : Nat
  archived : Nat
  skippedArchive : Nat
deriving DecidableEq, Repr

/-- The all-zero statistics built at the start of a run
(`initializeStats` in importer.js). -/
def initStats : Stats :=
  { total := 0, successful := 0, skipped := 0,
    tagged := 0, archived := 0, skippedArchive := 0 }

/-- `updateStats`: bump `total`, then either `skipped`, or on success
`successful` plus the conditional `tagged` / `archived` /
`skippedArchive` counters. -/
def updateStats (stats : Stats) (result : ProcessingResult) : Stats :=
  let s := { stats with total := stats.total + 1 }
  if result.skipped then
    { s with skipped := s.skipped + 1 }
  else if result.success then
    let s := { s with successful := s.successful + 1 }
    let s := if result.hasLabels then { s with tagged := s.tagged + 1 } else s
    let s := if result.isArchived then { s with archived := s.archived + 1 } else s
    if result.wasArchivedInPocket && !result.isArchived then
      { s with skippedArchive := s.skippedArchive + 1 }
    else s
  else s

/-! ## BatchRunner (`processRow` / `processAllRows`, importer.js) -/

/-- The external collaborators of the row pipeline: the platform `URL`
constructor, the liveness probe (already resolved to a `LivenessResult`
per URL), the Omnivore save client (`.error msg` models a thrown,
already-formatted error), and the uuid generator (indexed by row
number: one fresh uuid per processed row). -/
structure Env where
  urlParseError : String → Option String
  probe : String → LivenessResult
  save : SaveParams → Except String String
  uuid : Nat → String

/-- The error thrown out of `processRow`: the original message wrapped
with `Row N:` context. -/
structure RowFailure where
  rowNum : Nat
  message : String
deriving DecidableEq, Repr

/-- The `catch` block of `processRow`: prepend `Row N:` to the message. -/
def contextualFailure (rowNum : Nat) (msg : String) : RowFailure :=
  { rowNum := rowNum, message := "Row " ++ toString rowNum ++ ": " ++ msg }

/-- The save request built for a validated record inside `processRow`:
`labels = TagProcessor.processTags(tags)`, `hasTags = labels.length > 0`,
`shouldArchive = shouldArchiveArticle(status, hasTags)`, then
`buildSaveParams(url, labels, shouldArchive, timeAdded)`. -/
def rowSaveParams (opts : Options) (env : Env) (rowNum : Nat)
    (rec : ValidatedRecord) : SaveParams :=
  buildSaveParams (env.uuid rowNum) rec.url (processTags rec.tags)
    (shouldArchiveArticle opts rec.status (decide ((processTags rec.tags).length > 0)))
    rec.timeAdded

/-- `processRow`: validate, probe the URL (skip on a dead URL), then map
tags, decide archiving, build the request and save; validation and save
failures are wrapped with row context and thrown. -/
def processRow (opts : Options) (env : Env) (rowNum : Nat) (rowData : RawRecord) :
    Except RowFailure ProcessingResult :=
  match validateRow env.urlParseError rowNum rowData with
  | .error e => .error (contextualFailure rowNum (rowErrorMessage e))
  | .ok rec =>
    if !(env.probe rec.url).isAlive then
      .ok (createSkippedResult rec.title rec.url ("Dead URL: " ++ (env.probe rec.url).reason))
    else
      match env.save (rowSaveParams opts env rowNum rec) with
      | .error msg => .error (contextualFailure rowNum msg)
      | .ok apiResultId =>
          .ok (createProcessingResult apiResultId rec.title rec.url (processTags rec.tags)
            (rowSaveParams opts env rowNum rec) rec.status)

/-- What `handleProcessingError` surfaces when a row fails fatally: the
rethrown error together with the logged diagnostic context (row number,
the raw row, and the statistics accumulated before the failing row). -/
structure FatalError where
  failure : RowFailure
  rowNum : Nat
  row : RawRecord
  statsAtFailure : Stats
deriving DecidableEq, Repr

/-- The loop body of `processAllRows`, starting at 0-based index `idx`
with accumulated statistics `stats`: each row is processed with 1-based
row number `idx + 1`; a row failure aborts the whole run. -/
def processRowsFrom (opts : Options) (env : Env) :
    Nat → Stats → List RawRecord → Except FatalError Stats
  | _, stats, [] => .ok stats
  | idx, stats, row :: rest =>
    match processRow opts env (idx + 1) row with
    | .error e => .error { failure := e, rowNum := idx + 1, row := row, statsAtFailure := stats }
    | .ok result => processRowsFrom opts env (idx + 1) (updateStats stats result) rest

/-- `processAllRows`: run the loop over all rows from fresh statistics. -/
def processAllRows (opts : Options) (env : Env) (rows : List RawRecord) :
    Except FatalError Stats :=
  processRowsFrom opts env 0 initStats rows

/-! ## Concrete fixtures used by the witnesses -/

/-- Default constructor options (no `unreadUntagged`). -/
def defaultOptions : Options :=
  { unreadUntagged := false, delayBetweenRequests := 200, urlTimeout := 10000 }

/-- An environment where every URL parses, every probe succeeds with 200,
and every save succeeds. -/
def testEnv : Env :=
  { urlParseError := fun _ => none,
    probe := fun _ => { isAlive := true, statusCode := some 200, reason := "OK" },
    save := fun _ => .ok "id-1",
    uuid := fun n => "uuid-" ++ toString n }

/-- A well-formed unread row with two tags. -/
def goodRow : RawRecord :=
  { title := some "A", url := some "https://example.com",
    time_added := some "1609459200", tags := some "tag1|tag2", status := some "unread" }

/-- A row whose url column is empty: validation fails. -/
def badRow : RawRecord :=
  { title := some "B", url := some "", time_added := none,
    tags := none, status := some "archive" }

/-- An environment identical to `testEnv` except every probe reports a
404, i.e. every URL is dead. -/
def deadEnv : Env :=
  { testEnv with
    probe := fun _ => { isAlive := false, statusCode := some 404, reason := "HTTP 404" } }

example : processAllRows defaultOptions testEnv [goodRow] =
    .ok { total := 1, successful := 1, skipped := 0,
          tagged := 1, archived := 0, skippedArchive := 0 } := rfl

/-! ## Frame lemmas for the request builders -/

theorem addLabelsToParams_labels (p : SaveParams) (l : List Tag) :
    (addLabelsToParams p l).labels = if l.length > 0 then some l else p.labels := by
  unfold addLabelsToParams; split <;> rfl

theorem addLabelsToParams_state (p : SaveParams) (l : List Tag) :
    (addLabelsToParams p l).state = p.state := by
  unfold addLabelsToParams; split <;> rfl

theorem addLabelsToParams_savedAt (p : SaveParams) (l : List Tag) :
    (addLabelsToParams p l).savedAt = p.savedAt := by
  unfold addLabelsToParams; split <;> rfl

theorem addLabelsToParams_publishedAt (p : SaveParams) (l : List Tag) :
    (addLabelsToParams p l).publishedAt = p.publishedAt := by
  unfold addLabelsToParams; split <;> rfl

theorem addArchiveStateToParams_labels (p : SaveParams) (sa : Bool) :
    (addArchiveStateToParams p sa).labels = p.labels := by
  unfold addArchiveStateToParams; split <;> rfl

theorem addArchiveStateToParams_state (p : SaveParams) (sa : Bool) :
    (addArchiveStateToParams p sa).state = if sa then some "ARCHIVED" else p.state := by
  unfold addArchiveStateToParams; split <;> simp_all

theorem addArchiveStateToParams_savedAt (p : SaveParams) (sa : Bool) :
    (addArchiveStateToParams p sa).savedAt = p.savedAt := by
  unfold addArchiveStateToParams; split <;> rfl

theorem addArchiveStateToParams_publishedAt (p : SaveParams) (sa : Bool) :
    (addArchiveStateToParams p sa).publishedAt = p.publishedAt := by
  unfold addArchiveStateToParams; split <;> rfl

theorem addTimestampsToParams_labels (p : SaveParams) (t : String) :
    (addTimestampsToParams p t).labels = p.labels := by
  unfold addTimestampsToParams
  split
  · split <;> rfl
  · rfl

theorem addTimestampsToParams_state (p : SaveParams) (t : String) :
    (addTimestampsToParams p t).state = p.state := by
  unfold addTimestampsToParams
  split
  · split <;> rfl
  · rfl

theorem addTimestampsToParams_savedAt (p : SaveParams) (t : String) :
    (addTimestampsToParams p t).savedAt =
      match jsParseInt10 t with
      | some v => some (toISOString (v * 1000))
      | none => p.savedAt := by
  unfold addTimestampsToParams
  by_cases h : t = ""
  · subst h; rfl
  · rw [if_pos h]
    split <;> simp_all

theorem addTimestampsToParams_publishedAt (p : SaveParams) (t : String) :
    (addTimestampsToParams p t).publishedAt =
      match jsParseInt10 t with
      | some v => some (toISOString (v * 1000))
      | none => p.publishedAt := by
  unfold addTimestampsToParams
  by_cases h : t = ""
  · subst h; rfl
  · rw [if_pos h]
    split <;> simp_all

theorem buildSaveParams_savedAt (uuid url : String) (labels : List Tag) (sa : Bool)
    (t : String) :
    (buildSaveParams uuid url labels sa t).savedAt =
      match jsParseInt10 t with
      | some v => some (toISOString (v * 1000))
      | none => none := by
  unfold buildSaveParams
  rw [addTimestampsToParams_savedAt, addArchiveStateToParams_savedAt,
    addLabelsToParams_savedAt]
  rfl

theorem buildSaveParams_publishedAt (uuid url : String) (labels : List Tag) (sa : Bool)
    (t : String) :
    (buildSaveParams uuid url labels sa t).publishedAt =
      match jsParseInt10 t with
      | some v => some (toISOString (v * 1000))
      | none => none := by
  unfold buildSaveParams
  rw [addTimestampsToParams_publishedAt, addArchiveStateToParams_publishedAt,
    addLabelsToParams_publishedAt]
  rfl

/-! ## Claim theorems -/

/-- C3: `shouldArchive(status, hasTags, mode)` returns `false` whenever
`status ≠ "archive"`; for `status = "archive"` it returns `true` when
`unreadUntagged` mode is off, and returns `hasTags` when the mode is on. -/
theorem shouldArchiveArticle_table (opts : Options) (status : String) (hasTags : Bool) :
    (status ≠ "archive" → shouldArchiveArticle opts status hasTags = false) ∧
    (status = "archive" → opts.unreadUntagged = false →
      shouldArchiveArticle opts status hasTags = true) ∧
    (status = "archive" → opts.unreadUntagged = true →
      (shouldArchiveArticle opts status hasTags = true ↔ hasTags = true)) := by
  refine ⟨fun h => ?_, fun h hm => ?_, fun h hm => ?_⟩
  · simp [shouldArchiveArticle, h]
  · simp [shouldArchiveArticle, h, hm]
  · simp [shouldArchiveArticle, h, hm]

/-- Witness for C3 at concrete inputs. -/
theorem shouldArchiveArticle_table_witness :
    shouldArchiveArticle defaultOptions "unread" true = false ∧
    shouldArchiveArticle defaultOptions "archive" false = true ∧
    (shouldArchiveArticle
      { unreadUntagged := true, delayBetweenRequests := 200, urlTimeout := 10000 }
      "archive" false = true ↔ False) := by
  refine ⟨(shouldArchiveArticle_table defaultOptions "unread" true).1 (by decide),
    (shouldArchiveArticle_table defaultOptions "archive" false).2.1 rfl rfl, ?_⟩
  rw [(shouldArchiveArticle_table
    { unreadUntagged := true, delayBetweenRequests := 200, urlTimeout := 10000 }
    "archive" false).2.2 rfl rfl]
  simp

/-- C6: tag mapping.  Empty or whitespace-only input and bare-integer
input yield no tags; otherwise the input is split on `|`, pieces are
trimmed, empty pieces dropped, and each survivor becomes a tag with the
default color and empty description, in order. -/
theorem processTags_spec (s : String) :
    (jsTrim s = "" → processTags s = []) ∧
    (isBareInteger s = true → processTags s = []) ∧
    (jsTrim s ≠ "" → isBareInteger s = false →
      processTags s =
        (((jsSplit '|' s).map jsTrim).filter (fun t => t != "")).map
          (fun t => { name := t, color := DEFAULT_TAG_COLOR, description := "" })) := by
  refine ⟨fun h => ?_, fun h => ?_, fun h1 h2 => ?_⟩
  · unfold processTags
    simp [h]
  · unfold processTags
    by_cases he : (s = "" || jsTrim s = "" : Bool) = true <;> simp [he, h]
  · have hs : s ≠ "" := fun hs => h1 (by rw [hs]; rfl)
    unfold processTags
    simp [hs, h1, h2]

/-- Witness for C6 at concrete inputs. -/
theorem processTags_spec_witness :
    processTags "42" = [] ∧
    processTags " a || b " =
      [⟨"a", DEFAULT_TAG_COLOR, ""⟩, ⟨"b", DEFAULT_TAG_COLOR, ""⟩] := by
  refine ⟨(processTags_spec "42").2.1 (by decide), ?_⟩
  rw [(processTags_spec " a || b ").2.2 (by decide) (by decide)]
  decide

/-- C7: the built save request carries `labels` exactly when the tag list
is non-empty, and `state = "ARCHIVED"` exactly when the archive decision
is true (otherwise the field is absent). -/
theorem buildSaveParams_labels_state (uuid url : String) (labels : List Tag)
    (sa : Bool) (timeAdded : String) :
    ((buildSaveParams uuid url labels sa timeAdded).labels =
      if labels.length > 0 then some labels else none) ∧
    ((buildSaveParams uuid url labels sa timeAdded).state =
      if sa then some "ARCHIVED" else none) := by
  constructor
  · rw [buildSaveParams, addTimestampsToParams_labels, addArchiveStateToParams_labels,
      addLabelsToParams_labels]
    rfl
  · rw [buildSaveParams, addTimestampsToParams_state, addArchiveStateToParams_state,
      addLabelsToParams_state]
    rfl

/-- C5: the built save request carries `savedAt` and `publishedAt`, both
equal to the ISO-8601 instant of `timeAdded * 1000` ms since the epoch,
exactly when `timeAdded` parses with `parseInt(·, 10)`, and omits both
otherwise; concretely `"1609459200"` yields
`"2021-01-01T00:00:00.000Z"` and `""` yields absent fields. -/
theorem buildSaveParams_timestamps (uuid url : String) (labels : List Tag) (sa : Bool)
    (timeAdded : String) :
    ((buildSaveParams uuid url labels sa timeAdded).savedAt =
      match jsParseInt10 timeAdded with
      | some v => some (toISOString (v * 1000))
      | none => none) ∧
    ((buildSaveParams uuid url labels sa timeAdded).publishedAt =
      (buildSaveParams uuid url labels sa timeAdded).savedAt) ∧
    ((buildSaveParams uuid url labels sa "1609459200").savedAt =
      some "2021-01-01T00:00:00.000Z") ∧
    ((buildSaveParams uuid url labels sa "1609459200").publishedAt =
      some "2021-01-01T00:00:00.000Z") ∧
    ((buildSaveParams uuid url labels sa "").savedAt = none) ∧
    ((buildSaveParams uuid url labels sa "").publishedAt = none) := by
  refine ⟨buildSaveParams_savedAt uuid url labels sa timeAdded, ?_, ?_, ?_, ?_, ?_⟩
  · rw [buildSaveParams_savedAt, buildSaveParams_publishedAt]
  · rw [buildSaveParams_savedAt]; decide
  · rw [buildSaveParams_publishedAt]; decide
  · rw [buildSaveParams_savedAt]
    rfl
  · rw [buildSaveParams_publishedAt]
    rfl

/-- C8: classification of the liveness-probe events.  A response with
status in `[200, 400)` is alive with reason `"OK"`; any other status is
dead with reason `"HTTP <code>"`; connection errors and timeouts are
dead with a `null` status code.  The classifier is a total function of
the event, so every outcome is represented in the returned value and no
exception escapes. -/
theorem checkUrlAlive_classification (ev : ProbeEvent) :
    (∀ c : Int, ev = .response c → 200 ≤ c → c < 400 →
      checkUrlAliveOutcome ev =
        { isAlive := true, statusCode := some c, reason := "OK" }) ∧
    (∀ c : Int, ev = .response c → (c < 200 ∨ 400 ≤ c) →
      checkUrlAliveOutcome ev =
        { isAlive := false, statusCode := some c, reason := "HTTP " ++ toString c }) ∧
    (∀ r, ev = .connError r →
      checkUrlAliveOutcome ev = { isAlive := false, statusCode := none, reason := r }) ∧
    (ev = .timeout →
      checkUrlAliveOutcome ev =
        { isAlive := false, statusCode := none, reason := "Timeout" }) := by
  refine ⟨fun c hc h1 h2 => ?_, fun c hc h => ?_, fun r hr => ?_, fun ht => ?_⟩ <;>
    subst_vars <;> simp [checkUrlAliveOutcome]
  · exact ⟨h1, h2⟩
  · omega

/-- Witness for C8 at concrete events. -/
theorem checkUrlAlive_classification_witness :
    checkUrlAliveOutcome (.response 200) =
      { isAlive := true, statusCode := some 200, reason := "OK" } ∧
    checkUrlAliveOutcome (.response 404) =
      { isAlive := false, statusCode := some 404, reason := "HTTP 404" } ∧
    checkUrlAliveOutcome (.connError "ECONNREFUSED") =
      { isAlive := false, statusCode := none, reason := "ECONNREFUSED" } ∧
    checkUrlAliveOutcome .timeout =
      { isAlive := false, statusCode := none, reason := "Timeout" } :=
  ⟨(checkUrlAlive_classification (.response 200)).1 200 rfl (by decide) (by decide),
   (checkUrlAlive_classification (.response 404)).2.1 404 rfl (Or.inr (by decide)),
   (checkUrlAlive_classification (.connError "ECONNREFUSED")).2.2.1 "ECONNREFUSED" rfl,
   (checkUrlAlive_classification .timeout).2.2.2 rfl⟩

/-- C10: updating statistics with a dead-URL skipped result changes only
`total` and `skipped`; the skipped result records `hasLabels`,
`isArchived` and `wasArchivedInPocket` as `false` regardless of the
row's actual tags and status (the constructor does not even receive
them), so `successful`, `tagged`, `archived` and `skippedArchive` are
untouched. -/
theorem updateStats_skippedResult_frame (stats : Stats) (title url reason : String) :
    updateStats stats (createSkippedResult title url reason) =
      { stats with total := stats.total + 1, skipped := stats.skipped + 1 } ∧
    (createSkippedResult title url reason).hasLabels = false ∧
    (createSkippedResult title url reason).isArchived = false ∧
    (createSkippedResult title url reason).wasArchivedInPocket = false :=
  ⟨rfl, rfl, rfl, rfl⟩

/-- C4: `validateRow` fails with `EmptyUrl` exactly when the url is empty
after trimming; it fails with `InvalidUrlFormat` exactly when the
trimmed url is non-empty but rejected by the `URL` constructor
(modelled by `urlParseError`); both failures carry the row number; on
success it returns the trimmed fields with missing fields defaulted to
`""`. -/
theorem validateRow_spec (urlParseError : String → Option String) (rowNum : Nat)
    (rowData : RawRecord) :
    (validateRow urlParseError rowNum rowData = .error (.emptyUrl rowNum) ↔
      jsTrim (rowData.url.getD "") = "") ∧
    ((∃ detail, validateRow urlParseError rowNum rowData =
        .error (.invalidUrlFormat rowNum (jsTrim (rowData.url.getD "")) detail)) ↔
      (jsTrim (rowData.url.getD "") ≠ "" ∧
        urlParseError (jsTrim (rowData.url.getD "")) ≠ none)) ∧
    (∀ e, validateRow urlParseError rowNum rowData = .error e →
      ∃ msg, e = .emptyUrl rowNum ∨ e = .invalidUrlFormat rowNum (jsTrim (rowData.url.getD "")) msg) ∧
    (jsTrim (rowData.url.getD "") ≠ "" →
      urlParseError (jsTrim (rowData.url.getD "")) = none →
      validateRow urlParseError rowNum rowData =
        .ok { title := jsTrim (rowData.title.getD ""),
              url := jsTrim (rowData.url.getD ""),
              timeAdded := jsTrim (rowData.time_added.getD ""),
              tags := jsTrim (rowData.tags.getD ""),
              status := jsTrim (rowData.status.getD "") }) := by
  unfold validateRow
  by_cases hu : jsTrim (rowData.url.getD "") = ""
  · rw [if_pos hu]
    refine ⟨by simp [hu], ?_, ?_, fun h _ => absurd hu h⟩
    · constructor
      · rintro ⟨d, hd⟩
        cases hd
      · rintro ⟨h, _⟩
        exact absurd hu h
    · intro e he
      exact ⟨"", Or.inl (by cases he; rfl)⟩
  · rw [if_neg hu]
    rcases hp : urlParseError (jsTrim (rowData.url.getD "")) with _ | detail
    · refine ⟨by simp [hu], ?_, ?_, fun _ _ => rfl⟩
      · constructor
        · rintro ⟨d, hd⟩
          cases hd
        · rintro ⟨_, hne⟩
          exact absurd rfl hne
      · intro e he
        cases he
    · refine ⟨by simp [hu], ?_, ?_, fun _ hnone => by simp at hnone⟩
      · constructor
        · intro _
          exact ⟨hu, by simp⟩
        · intro _
          exact ⟨detail, rfl⟩
      · intro e he
        refine ⟨detail, Or.inr ?_⟩
        cases he
        rfl

/-- Witness for C4: an empty url, an invalid url, and a valid row. -/
theorem validateRow_spec_witness :
    (validateRow (fun _ => some "Invalid URL") 3 badRow = .error (.emptyUrl 3) ↔
      jsTrim "" = "") ∧
    ((∃ detail, validateRow (fun _ => some "Invalid URL") 4
        { badRow with url := some "not-a-url" } =
        .error (.invalidUrlFormat 4 "not-a-url" detail)) ↔
      ("not-a-url" ≠ "" ∧ some "Invalid URL" ≠ (none : Option String))) ∧
    validateRow (fun _ => none) 5 goodRow =
      .ok { title := "A", url := "https://example.com", timeAdded := "1609459200",
            tags := "tag1|tag2", status := "unread" } := by
  refine ⟨?_, ?_,
    (validateRow_spec (fun _ => none) 5 goodRow).2.2.2 (by decide) rfl⟩
  · exact (validateRow_spec (fun _ => some "Invalid URL") 3 badRow).1
  · exact (validateRow_spec (fun _ => some "Invalid URL") 4
      { badRow with url := some "not-a-url" }).2.1

/-! ## Statistics invariant (C9) -/

/-- The statistics invariant: `total` splits into `successful + skipped`,
and the refinement counters never exceed `successful`. -/
def statsInvariant (s : Stats) : Prop :=
  s.total = s.successful + s.skipped ∧
  s.tagged ≤ s.successful ∧
  s.archived ≤ s.successful ∧
  s.skippedArchive ≤ s.successful

theorem updateStats_preservesInvariant (s : Stats) (r : ProcessingResult)
    (h : statsInvariant s) (hr : r.skipped = true ∨ r.success = true) :
    statsInvariant (updateStats s r) := by
  obtain ⟨h1, h2, h3, h4⟩ := h
  unfold updateStats statsInvariant
  by_cases hsk : r.skipped = true
  · simp [hsk]
    omega
  · have hsu : r.success = true := hr.resolve_left hsk
    rcases hL : r.hasLabels <;> rcases hA : r.isArchived <;>
      rcases hW : r.wasArchivedInPocket <;>
      simp [hsk, hsu, hL, hA, hW] <;> omega

/-- C9: starting from the zeroed statistics, after every per-row update
with a result from the row pipeline (which is either skipped or
successful — the second conjunct shows every result `processRow`
returns has that shape) the invariant `total = successful + skipped`
holds, and `tagged`, `archived` and `skippedArchive` are each bounded
by `successful`. -/
theorem statsInvariant_run (results : List ProcessingResult)
    (h : ∀ r ∈ results, r.skipped = true ∨ r.success = true) :
    statsInvariant (results.foldl updateStats initStats) ∧
    (∀ (opts : Options) (env : Env) (n : Nat) (rd : RawRecord) (r : ProcessingResult),
      processRow opts env n rd = .ok r → (r.skipped = true ∨ r.success = true)) := by
  constructor
  · have aux : ∀ (l : List ProcessingResult) (s : Stats), statsInvariant s →
        (∀ r ∈ l, r.skipped = true ∨ r.success = true) →
        statsInvariant (l.foldl updateStats s) := by
      intro l
      induction l with
      | nil => exact fun s hs _ => hs
      | cons r rest ih =>
        intro s hs hm
        exact ih _ (updateStats_preservesInvariant s r hs (hm r (by simp)))
          (fun x hx => hm x (by simp [hx]))
    exact aux results initStats ⟨rfl, Nat.le_refl 0, Nat.le_refl 0, Nat.le_refl 0⟩ h
  · intro opts env n rd r hok
    unfold processRow at hok
    rcases hv : validateRow env.urlParseError n rd with ve | rec <;> rw [hv] at hok
    · exact Except.noConfusion hok
    · dsimp only at hok
      by_cases ha : (env.probe rec.url).isAlive
      · rw [if_neg (by simp [ha])] at hok
        rcases hs : env.save (rowSaveParams opts env n rec) with m | idv <;>
          rw [hs] at hok <;> dsimp only at hok
        · exact Except.noConfusion hok
        · cases hok
          right
          rfl
      · rw [if_pos (by simp [ha])] at hok
        cases hok
        left
        rfl

/-- Witness for C9 on a concrete result list. -/
theorem statsInvariant_run_witness :
    statsInvariant ([createSkippedResult "t" "u" "dead",
      createProcessingResult "id" "t2" "u2" [] (prepareSaveParams "x" "u2") "archive"
      ].foldl updateStats initStats) :=
  (statsInvariant_run _ (by decide)).1

/-! ## The batch loop (C1, C2) -/

/-- C2: a row whose liveness probe reports not alive yields the skipped
outcome with reason `"Dead URL: " ++ probe reason`; the statistics
update for that outcome increments only `total` and `skipped` (leaving
`successful`, `tagged` and `archived` untouched); and the batch loop
continues with the next row instead of failing. -/
theorem processRow_deadUrl (opts : Options) (env : Env) (idx : Nat)
    (rowData : RawRecord) (rec : ValidatedRecord) (stats : Stats)
    (rest : List RawRecord)
    (hv : validateRow env.urlParseError (idx + 1) rowData = .ok rec)
    (hd : (env.probe rec.url).isAlive = false) :
    processRow opts env (idx + 1) rowData =
      .ok (createSkippedResult rec.title rec.url
        ("Dead URL: " ++ (env.probe rec.url).reason)) ∧
    updateStats stats
      (createSkippedResult rec.title rec.url ("Dead URL: " ++ (env.probe rec.url).reason)) =
      { stats with total := stats.total + 1, skipped := stats.skipped + 1 } ∧
    processRowsFrom opts env idx stats (rowData :: rest) =
      processRowsFrom opts env (idx + 1)
        { stats with total := stats.total + 1, skipped := stats.skipped + 1 } rest := by
  have h1 : processRow opts env (idx + 1) rowData =
      .ok (createSkippedResult rec.title rec.url
        ("Dead URL: " ++ (env.probe rec.url).reason)) := by
    unfold processRow
    rw [hv]
    dsimp only
    rw [if_pos (by simp [hd])]
  refine ⟨h1, rfl, ?_⟩
  simp only [processRowsFrom, h1]
  rfl

/-- Witness for C2: a dead-URL row, then the loop continues to the rest. -/
theorem processRow_deadUrl_witness :
    processRow defaultOptions deadEnv 1 goodRow =
      .ok (createSkippedResult "A" "https://example.com" "Dead URL: HTTP 404") ∧
    processRowsFrom defaultOptions deadEnv 0 initStats [goodRow, goodRow] =
      processRowsFrom defaultOptions deadEnv 1
        { initStats with total := 1, skipped := 1 } [goodRow] := by
  have h := processRow_deadUrl defaultOptions deadEnv 0 goodRow
    { title := "A", url := "https://example.com", timeAdded := "1609459200",
      tags := "tag1|tag2", status := "unread" } initStats [goodRow] rfl rfl
  exact ⟨h.1, h.2.2⟩

theorem processRowsFrom_append (opts : Options) (env : Env) (xs ys : List RawRecord) :
    ∀ (idx : Nat) (stats : Stats),
      processRowsFrom opts env idx stats (xs ++ ys) =
        match processRowsFrom opts env idx stats xs with
        | .ok s => processRowsFrom opts env (idx + xs.length) s ys
        | .error f => .error f := by
  induction xs with
  | nil =>
    intro idx stats
    simp [processRowsFrom]
  | cons x xs ih =>
    intro idx stats
    have hlen : idx + (x :: xs).length = (idx + 1) + xs.length := by
      simp only [List.length_cons]
      omega
    rw [hlen]
    simp only [List.cons_append, processRowsFrom]
    rcases h : processRow opts env (idx + 1) x with e | r <;> simp only [h]
    exact ih (idx + 1) (updateStats stats r)

theorem processRow_error_rowNum (opts : Options) (env : Env) (n : Nat)
    (rd : RawRecord) (e : RowFailure) (h : processRow opts env n rd = .error e) :
    e.rowNum = n := by
  unfold processRow at h
  rcases hv : validateRow env.urlParseError n rd with ve | rec <;>
    rw [hv] at h <;> dsimp only at h
  · cases h
    rfl
  · by_cases ha : (env.probe rec.url).isAlive
    · rw [if_neg (by simp [ha])] at h
      rcases hs : env.save (rowSaveParams opts env n rec) with m | idv <;>
        rw [hs] at h <;> dsimp only at h
      · cases h
        rfl
      · exact Except.noConfusion h
    · rw [if_pos (by simp [ha])] at h
      exact Except.noConfusion h

theorem processRow_error_cases (opts : Options) (env : Env) (n : Nat)
    (rd : RawRecord) (e : RowFailure) (h : processRow opts env n rd = .error e) :
    (∃ ve, validateRow env.urlParseError n rd = .error ve) ∨
    (∃ rec msg, validateRow env.urlParseError n rd = .ok rec ∧
      (env.probe rec.url).isAlive = true ∧
      env.save (rowSaveParams opts env n rec) = .error msg) := by
  unfold processRow at h
  rcases hv : validateRow env.urlParseError n rd with ve | rec <;>
    rw [hv] at h <;> dsimp only at h
  · exact Or.inl ⟨ve, rfl⟩
  · by_cases ha : (env.probe rec.url).isAlive
    · rw [if_neg (by simp [ha])] at h
      rcases hs : env.save (rowSaveParams opts env n rec) with m | idv <;>
        rw [hs] at h <;> dsimp only at h
      · exact Or.inr ⟨rec, m, rfl, ha, hs⟩
      · exact Except.noConfusion h
    · rw [if_pos (by simp [ha])] at h
      exact Except.noConfusion h

/-- C1: fail-fast.  If the prefix `pre` processes cleanly to statistics
`s` and row number `pre.length + 1` fails — which happens exactly on a
validation failure or a save failure (third conjunct) — then the whole
run surfaces that failure enriched with the row number, the raw row and
the statistics accumulated over the prefix; the result is independent
of every row after the failing one (`suffix` is universally quantified
and absent from the result), so no later row is validated, probed or
saved. -/
theorem processAllRows_failFast (opts : Options) (env : Env)
    (pre : List RawRecord) (row : RawRecord) (suffix : List RawRecord)
    (s : Stats) (e : RowFailure)
    (hpre : processRowsFrom opts env 0 initStats pre = .ok s)
    (hfail : processRow opts env (pre.length + 1) row = .error e) :
    processAllRows opts env (pre ++ row :: suffix) =
      .error { failure := e, rowNum := pre.length + 1, row := row, statsAtFailure := s } ∧
    e.rowNum = pre.length + 1 ∧
    ((∃ ve, validateRow env.urlParseError (pre.length + 1) row = .error ve) ∨
      (∃ rec msg, validateRow env.urlParseError (pre.length + 1) row = .ok rec ∧
        (env.probe rec.url).isAlive = true ∧
        env.save (rowSaveParams opts env (pre.length + 1) rec) = .error msg)) := by
  refine ⟨?_, processRow_error_rowNum opts env _ row e hfail,
    processRow_error_cases opts env _ row e hfail⟩
  unfold processAllRows
  rw [processRowsFrom_append opts env pre (row :: suffix) 0 initStats, hpre]
  dsimp only
  rw [Nat.zero_add]
  simp only [processRowsFrom, hfail]

/-- Witness for C1: a good row, then a row with an empty url, then
another good row; the run fails at row 2 with the prefix statistics. -/
theorem processAllRows_failFast_witness :
    processAllRows defaultOptions testEnv [goodRow, badRow, goodRow] =
      .error ⟨⟨2, "Row 2: Row 2: Empty URL found"⟩, 2, badRow, ⟨1, 1, 0, 1, 0, 0⟩⟩ :=
  (processAllRows_failFast defaultOptions testEnv [goodRow] badRow [goodRow]
    ⟨1, 1, 0, 1, 0, 0⟩ ⟨2, "Row 2: Row 2: Empty URL found"⟩ rfl rfl).1
